import Mathlib

/-!
Verification of the session-manager core (grid terminal emulator and
session/window bookkeeping) against its natural-language specification.

The definitions below are a shallow embedding of `src/grid.rs`,
`src/session.rs` and `src/lib.rs`:

* `u16`/`usize` fields become `Nat`; the places where the Rust code does
  signed arithmetic (`i64`) use `Int` with explicit clamping, exactly as in
  the source.
* Buffer writes via indexing (`self.buffer[pos] = ...`) panic in Rust when
  the index is out of bounds; the embedding performs a bounds-checked write
  that leaves the buffer unchanged out of bounds (an out-of-bounds write
  never resizes the buffer in Rust either, so size/shape facts proved here
  hold for every non-panicking execution).
* `u16` subtraction that would panic on underflow in a debug build is
  embedded as truncated `Nat` subtraction; no theorem below depends on an
  underflowing run.
* Writers (`W: Write`) are embedded by returning the written bytes as a
  `String`.
-/

/-! ## Colors, cells and cursor positions (`src/grid.rs`) -/

/-- `vte::ansi::NamedColor` as used by the source (`to_termion_color`). -/
inductive NamedColor where
  | Cursor | Foreground | BrightForeground | DimForeground | Background
  | Black | Red | Green | Yellow | Blue | Magenta | Cyan | White
  | DimBlack | DimRed | DimGreen | DimYellow | DimBlue | DimMagenta
  | DimCyan | DimWhite
  | BrightBlack | BrightRed | BrightGreen | BrightYellow | BrightBlue
  | BrightMagenta | BrightCyan | BrightWhite
deriving DecidableEq, Repr

/-- `vte::ansi::Rgb`. -/
structure Rgb where
  r : Nat
  g : Nat
  b : Nat
deriving DecidableEq, Repr

/-- `vte::ansi::Color`. -/
inductive Color where
  | Named (n : NamedColor)
  | Spec (rgb : Rgb)
  | Indexed (i : Nat)
deriving DecidableEq, Repr

/-- `vte::ansi::Attr`, restricted to the variants the grid inspects; every
other variant is only logged by the source, collapsed here into `Other`. -/
inductive Attr where
  | Reset
  | Foreground (c : Color)
  | Background (c : Color)
  | Other
deriving DecidableEq, Repr

/-- `vte::ansi::LineClearMode`. -/
inductive LineClearMode where
  | All | Left | Right
deriving DecidableEq, Repr

/-- `vte::ansi::ClearMode`. -/
inductive ClearMode where
  | All | Saved | Above | Below
deriving DecidableEq, Repr

/-- `Cell` (grid.rs): a character with foreground/background colors. -/
structure Cell where
  c : Char
  bg : Color
  fg : Color
deriving DecidableEq, Repr

/-- `Cell::default` (grid.rs): a `.` glyph on the default colors. -/
def Cell.default : Cell :=
  { c := '.', bg := Color.Named NamedColor.Background,
    fg := Color.Named NamedColor.Foreground }

/-- `CursorPos` (grid.rs): zero-indexed `(col, row)`. -/
structure CursorPos where
  col : Nat
  row : Nat
deriving DecidableEq, Repr

/-- `CursorPos::at(col, row)`. -/
def CursorPos.at (col row : Nat) : CursorPos := ⟨col, row⟩

/-- The `Ord` instance on `CursorPos`: row-major lexicographic strict order. -/
def CursorPos.lt (a b : CursorPos) : Prop :=
  a.row < b.row ∨ (a.row = b.row ∧ a.col < b.col)

instance : DecidablePred (fun p : CursorPos × CursorPos => CursorPos.lt p.1 p.2) :=
  fun _ => by unfold CursorPos.lt; infer_instance

instance (a b : CursorPos) : Decidable (CursorPos.lt a b) := by
  unfold CursorPos.lt; infer_instance

/-- Non-strict companion of `CursorPos.lt`. -/
def CursorPos.le (a b : CursorPos) : Prop :=
  CursorPos.lt a b ∨ a = b

instance (a b : CursorPos) : Decidable (CursorPos.le a b) := by
  unfold CursorPos.le; infer_instance

/-- `Range<CursorPos>::contains` under the lexicographic order. -/
def cursorRangeContains (lo hi p : CursorPos) : Prop :=
  CursorPos.le lo p ∧ CursorPos.lt p hi

instance (lo hi p : CursorPos) : Decidable (cursorRangeContains lo hi p) := by
  unfold cursorRangeContains; infer_instance

/-- `Displace` (grid.rs). -/
inductive Displace where
  | Absolute (n : Int)
  | Relative (n : Int)
  | ToStart
  | ToTabStop
deriving DecidableEq, Repr

/-! ## The grid state (`Grid` in grid.rs)

`buffer` mirrors `GridBuffer { rows: Vec<Row<Cell>> }` as a list of rows,
each row a list of cells.  `dirty_rows` mirrors the `BTreeSet<u16>` as a
`Finset Nat`.  `scrolling_region : Nat × Nat` is the half-open
`Range<u16>` `(start, end)`. -/

structure Grid where
  cursor : CursorPos
  saved_cursor : CursorPos
  scrolling_region : Nat × Nat
  width : Nat
  height : Nat
  buffer : List (List Cell)
  dirty_rows : Finset Nat
  sgr_template : Cell
deriving DecidableEq

/-- `Grid::new(width, height)` (grid.rs).  `dirty_rows = (0..height).collect()`. -/
def Grid.new (width height : Nat) : Grid :=
  { cursor := ⟨0, 0⟩
    saved_cursor := ⟨0, 0⟩
    scrolling_region := (0, height)
    width := width
    height := height
    buffer := List.replicate height (List.replicate width Cell.default)
    dirty_rows := Finset.range height
    sgr_template := Cell.default }

/-- `Grid::mark_all_dirty`. -/
def Grid.mark_all_dirty (g : Grid) : Grid :=
  { g with dirty_rows := Finset.range g.height }

/-- Write a cell at `(col, row)` into the row-list buffer; the embedding of
`self.buffer[pos] = v` (a no-op out of bounds, where Rust panics). -/
def bufSet : List (List Cell) → Nat → Nat → Cell → List (List Cell)
  | [], _, _, _ => []
  | r :: rs, col, 0, c => r.set col c :: rs
  | r :: rs, col, row + 1, c => r :: bufSet rs col row c

/-- Read the cell at `(col, row)`; `Cell.default` out of bounds. -/
def bufGet (b : List (List Cell)) (col row : Nat) : Cell :=
  ((b[row]?).bind (fun r => r[col]?)).getD Cell.default

/-- `Grid::cell_at` as a partial read (`none` where Rust would panic). -/
def Grid.cell? (g : Grid) (col row : Nat) : Option Cell :=
  (g.buffer[row]?).bind (fun r => r[col]?)

/-- `*self.cell_at_mut(pos) = c` (grid.rs): records the row as dirty, then
writes the cell. -/
def Grid.cell_set (g : Grid) (col row : Nat) (c : Cell) : Grid :=
  { g with dirty_rows := insert row g.dirty_rows
           buffer := bufSet g.buffer col row c }

/-- `Grid::move_horizontal` (grid.rs).  Note that only the `Absolute` and
`Relative` arms clamp against `width - 1`; `ToTabStop` is the raw
`(cursor.col + 8) & !7`. -/
def Grid.move_horizontal (g : Grid) (displacement : Displace) : Grid :=
  { g with cursor.col :=
      match displacement with
      | Displace.Absolute offset => (max 0 (min ((g.width : Int) - 1) offset)).toNat
      | Displace.Relative offset =>
          (max 0 (min ((g.width : Int) - 1) ((g.cursor.col : Int) + offset))).toNat
      | Displace.ToStart => 0
      | Displace.ToTabStop => (g.cursor.col + 8) &&& 0xFFF8 }

/-- `Grid::move_vertical` (grid.rs): clamps against `height - 1`;
`ToTabStop` (vertical tab) is unimplemented and keeps the row. -/
def Grid.move_vertical (g : Grid) (displacement : Displace) : Grid :=
  { g with cursor.row :=
      match displacement with
      | Displace.Absolute offset => (max 0 (min ((g.height : Int) - 1) offset)).toNat
      | Displace.Relative offset =>
          (max 0 (min ((g.height : Int) - 1) ((g.cursor.row : Int) + offset))).toNat
      | Displace.ToStart => 0
      | Displace.ToTabStop => g.cursor.row }

/-- `Grid::scroll_up_in_region(start, end, lines)` (grid.rs): rows ascending,
each cell pulled from `row + lines` when still inside the region, else the
default cell. -/
def Grid.scroll_up_in_region (g : Grid) (rstart rend lines : Nat) : Grid :=
  if lines < 1 then g
  else
    (List.range' rstart (rend - rstart)).foldl
      (fun g row =>
        (List.range g.width).foldl
          (fun g col =>
            g.cell_set col row
              (if row + lines < rend then bufGet g.buffer col (row + lines)
               else Cell.default))
          g)
      g

/-- `Grid::scroll_down_in_region(start, end, lines)` (grid.rs): rows
descending, each cell pulled from `row - lines` when `row ≥ lines + start`,
else the default cell. -/
def Grid.scroll_down_in_region (g : Grid) (rstart rend lines : Nat) : Grid :=
  if lines < 1 then g
  else
    (List.range' rstart (rend - rstart)).reverse.foldl
      (fun g row =>
        (List.range g.width).foldl
          (fun g col =>
            g.cell_set col row
              (if lines + rstart ≤ row then bufGet g.buffer col (row - lines)
               else Cell.default))
          g)
      g

/-- Handler `scroll_up(rows)`: scroll inside the scrolling region. -/
def Grid.scroll_up (g : Grid) (rows : Nat) : Grid :=
  g.scroll_up_in_region g.scrolling_region.1 g.scrolling_region.2 rows

/-- Handler `scroll_down(rows)`. -/
def Grid.scroll_down (g : Grid) (rows : Nat) : Grid :=
  g.scroll_down_in_region g.scrolling_region.1 g.scrolling_region.2 rows

/-! ## Handler callbacks (`impl Handler for Grid` in grid.rs) -/

/-- `Grid::goto(row, col)`: absolute horizontal then vertical motion. -/
def Grid.goto (g : Grid) (row col : Nat) : Grid :=
  (g.move_horizontal (Displace.Absolute (col : Int))).move_vertical
    (Displace.Absolute (row : Int))

/-- `Grid::goto_line(row)`. -/
def Grid.goto_line (g : Grid) (row : Nat) : Grid :=
  g.move_vertical (Displace.Absolute (row : Int))

/-- `Grid::goto_col(col)`. -/
def Grid.goto_col (g : Grid) (col : Nat) : Grid :=
  g.move_horizontal (Displace.Absolute (col : Int))

/-- `Grid::carriage_return`. -/
def Grid.carriage_return (g : Grid) : Grid :=
  g.move_horizontal Displace.ToStart

/-- `Grid::input(c)` (grid.rs): pending-wrap scroll, cell write from the SGR
template, cursor advance with wrap. -/
def Grid.input (g : Grid) (c : Char) : Grid :=
  let g :=
    if g.cursor = CursorPos.at 0 g.scrolling_region.2 then
      let g := g.scroll_up 1
      { g with cursor.row := g.cursor.row - 1 }
    else g
  let g := g.cell_set g.cursor.col g.cursor.row { g.sgr_template with c := c }
  let g := { g with cursor.col := g.cursor.col + 1 }
  if g.cursor.col = g.width then
    Grid.carriage_return { g with cursor.row := g.cursor.row + 1 }
  else g

/-- `Grid::insert_blank(cols)`: right-shift the tail of the cursor row. -/
def Grid.insert_blank (g : Grid) (cols : Nat) : Grid :=
  if cols < 1 then g
  else
    (List.range' g.cursor.col (g.width - g.cursor.col)).reverse.foldl
      (fun g col =>
        g.cell_set col g.cursor.row
          (if cols + g.cursor.col ≤ col then
             bufGet g.buffer (col - cols) g.cursor.row
           else Cell.default))
      g

/-- `Grid::move_up(rows)`. -/
def Grid.move_up (g : Grid) (rows : Nat) : Grid :=
  g.move_vertical (Displace.Relative (-(rows : Int)))

/-- `Grid::move_down(rows)`. -/
def Grid.move_down (g : Grid) (rows : Nat) : Grid :=
  g.move_vertical (Displace.Relative (rows : Int))

/-- `Grid::device_status(file, param)` (grid.rs): the bytes written to the
reply writer.  `5` answers "terminal OK", `6` reports the 1-indexed cursor
position, anything else only logs. -/
def Grid.device_status (g : Grid) (param : Nat) : String :=
  if param = 5 then "\x1b[0n"
  else if param = 6 then
    "\x1b[" ++ toString (g.cursor.row + 1) ++ ";" ++ toString (g.cursor.col + 1) ++ "R"
  else ""

/-- `Grid::move_forward(cols)`. -/
def Grid.move_forward (g : Grid) (cols : Nat) : Grid :=
  g.move_horizontal (Displace.Relative (cols : Int))

/-- `Grid::move_backward(cols)`. -/
def Grid.move_backward (g : Grid) (cols : Nat) : Grid :=
  g.move_horizontal (Displace.Relative (-(cols : Int)))

/-- `Grid::move_down_and_cr(rows)`. -/
def Grid.move_down_and_cr (g : Grid) (rows : Nat) : Grid :=
  (g.move_vertical (Displace.Relative (rows : Int))).move_horizontal Displace.ToStart

/-- `Grid::move_up_and_cr(rows)`. -/
def Grid.move_up_and_cr (g : Grid) (rows : Nat) : Grid :=
  (g.move_vertical (Displace.Relative (-(rows : Int)))).move_horizontal Displace.ToStart

/-- `Grid::put_tab(count)`: `count` applications of `ToTabStop` (none when
`count ≤ 0`, matching `for _ in 0..count` on an `i64`). -/
def Grid.put_tab (g : Grid) (count : Int) : Grid :=
  (fun g : Grid => g.move_horizontal Displace.ToTabStop)^[count.toNat] g

/-- `Grid::backspace`. -/
def Grid.backspace (g : Grid) : Grid :=
  g.move_horizontal (Displace.Relative (-1))

/-- `Grid::linefeed` (grid.rs). -/
def Grid.linefeed (g : Grid) : Grid :=
  if g.cursor.row + 1 = g.scrolling_region.2 then g.scroll_up 1
  else if g.cursor.row + 1 < g.height then { g with cursor.row := g.cursor.row + 1 }
  else g

/-- `Grid::newline` delegates to `linefeed`. -/
def Grid.newline (g : Grid) : Grid := g.linefeed

/-- `Grid::insert_blank_lines(rows)`: only inside the scrolling region. -/
def Grid.insert_blank_lines (g : Grid) (rows : Nat) : Grid :=
  if g.scrolling_region.1 ≤ g.cursor.row ∧ g.cursor.row < g.scrolling_region.2 then
    g.scroll_down_in_region g.cursor.row g.scrolling_region.2 rows
  else g

/-- `Grid::delete_lines(rows)`: only inside the scrolling region. -/
def Grid.delete_lines (g : Grid) (rows : Nat) : Grid :=
  if g.scrolling_region.1 ≤ g.cursor.row ∧ g.cursor.row < g.scrolling_region.2 then
    g.scroll_up_in_region g.cursor.row g.scrolling_region.2 rows
  else g

/-- `Grid::erase_chars(cols)`. -/
def Grid.erase_chars (g : Grid) (cols : Nat) : Grid :=
  (List.range cols).foldl
    (fun g x1 =>
      let col := g.cursor.col + x1
      if col < g.width then g.cell_set col g.cursor.row Cell.default else g)
    g

/-- `Grid::delete_chars(cols)`: left-shift the tail of the cursor row. -/
def Grid.delete_chars (g : Grid) (cols : Nat) : Grid :=
  (List.range' g.cursor.col (g.width - g.cursor.col)).foldl
    (fun g col =>
      g.cell_set col g.cursor.row
        (if col + cols < g.width then bufGet g.buffer (col + cols) g.cursor.row
         else Cell.default))
    g

/-- `Grid::move_forward_tabs(count)`. -/
def Grid.move_forward_tabs (g : Grid) (count : Int) : Grid :=
  (fun g : Grid => g.move_horizontal Displace.ToTabStop)^[count.toNat] g

/-- `Grid::save_cursor_position`. -/
def Grid.save_cursor_position (g : Grid) : Grid :=
  { g with saved_cursor := g.cursor }

/-- `Grid::restore_cursor_position`. -/
def Grid.restore_cursor_position (g : Grid) : Grid :=
  { g with cursor := g.saved_cursor }

/-- `Grid::clear_line(mode)` (grid.rs): defaults the cells of the chosen
column range on the cursor row and marks that row dirty. -/
def Grid.clear_line (g : Grid) (mode : LineClearMode) : Grid :=
  let r : Nat × Nat :=
    match mode with
    | LineClearMode.All => (0, g.width)
    | LineClearMode.Left => (0, g.cursor.col)
    | LineClearMode.Right => (g.cursor.col, g.width)
  { g with dirty_rows := insert g.cursor.row g.dirty_rows
           buffer :=
             (List.range' r.1 (r.2 - r.1)).foldl
               (fun b col => bufSet b col g.cursor.row Cell.default) g.buffer }

/-- `Grid::clear_screen(mode)` (grid.rs): defaults every cell whose position
lies in the lexicographic `CursorPos` range of the mode. -/
def Grid.clear_screen (g : Grid) (mode : ClearMode) : Grid :=
  let r : CursorPos × CursorPos :=
    match mode with
    | ClearMode.All => (CursorPos.at 0 0, CursorPos.at 0 g.height)
    | ClearMode.Saved => (CursorPos.at 0 0, CursorPos.at 0 g.height)
    | ClearMode.Above => (CursorPos.at 0 0, g.cursor)
    | ClearMode.Below => (g.cursor, CursorPos.at 0 g.height)
  (List.range' r.1.row (r.2.row + 1 - r.1.row)).foldl
    (fun g row =>
      (List.range g.width).foldl
        (fun g col =>
          if cursorRangeContains r.1 r.2 (CursorPos.at col row) then
            g.cell_set col row Cell.default
          else g)
        g)
    g

/-- `Grid::reverse_index` (grid.rs). -/
def Grid.reverse_index (g : Grid) : Grid :=
  if g.cursor.row = g.scrolling_region.1 then g.scroll_down 1
  else { g with cursor.row := g.cursor.row - 1 }

/-- `Grid::terminal_attribute(attr)` (grid.rs): SGR template update. -/
def Grid.terminal_attribute (g : Grid) (attr : Attr) : Grid :=
  match attr with
  | Attr.Reset => { g with sgr_template := Cell.default }
  | Attr.Foreground color => { g with sgr_template.fg := color }
  | Attr.Background color => { g with sgr_template.bg := color }
  | Attr.Other => g

/-- `Grid::set_scrolling_region(top, bottom)` (grid.rs): 1-indexed
arguments; the region becomes `[top-1, min(bottom, height))` and the cursor
homes. -/
def Grid.set_scrolling_region (g : Grid) (top : Nat) (bottom : Option Nat) : Grid :=
  let bottom := bottom.getD g.height
  let g := { g with scrolling_region := (top - 1, min bottom g.height) }
  g.goto 0 0

/-- `Vec::resize(n, fill)` on a list: truncate or pad with `fill`. -/
def listResize {α : Type} (l : List α) (n : Nat) (fill : α) : List α :=
  l.take n ++ List.replicate (n - l.length) fill

/-- `Grid::resize(new_width, new_height)` (grid.rs).  The width-shrink
branch clamps the `row` fields against `new_width - 1`, exactly as the
source does. -/
def Grid.resize (g : Grid) (new_width new_height : Nat) : Grid :=
  let g :=
    if new_height < g.height then
      let e := if g.cursor.col = 0 then g.cursor.row else 1 + g.cursor.row
      let g :=
        if new_height < e then
          let g := g.scroll_up_in_region 0 e (e - new_height)
          { g with cursor.row := g.cursor.row - (e - new_height) }
        else g
      let g := { g with scrolling_region :=
                   (g.scrolling_region.1, min g.scrolling_region.2 new_height) }
      { g with saved_cursor.row := min g.saved_cursor.row (new_height - 1) }
    else g
  let g :=
    if g.height < new_height ∧ g.scrolling_region.2 = g.height then
      { g with scrolling_region := (g.scrolling_region.1, new_height) }
    else g
  let g := { g with height := new_height
                    buffer := listResize g.buffer new_height
                      (List.replicate g.width Cell.default) }
  let g :=
    if new_width < g.width then
      { g with cursor.row := min g.cursor.row (new_width - 1)
               saved_cursor.row := min g.saved_cursor.row (new_width - 1) }
    else g
  let g := { g with width := new_width
                    buffer := g.buffer.map (fun r => listResize r new_width Cell.default) }
  g.mark_all_dirty

/-- `Grid::draw(term)` (grid.rs): emits the dirty rows in ascending order
(returned here as the list of emitted row indices), then clears
`dirty_rows`. -/
def Grid.draw (g : Grid) : Grid × List Nat :=
  ({ g with dirty_rows := ∅ }, g.dirty_rows.sort (· ≤ ·))

/-! ## One step of the handler callback surface

`HandlerCall` enumerates the calls of `impl Handler<W> for Grid<W>`
(grid.rs).  Handlers that only log in the source (titles, charsets, modes,
colors, clipboard, tab-stop management, `bell`, `substitute`, `decaln`,
`reset_state`, `identify_terminal`) do not change the grid; their arguments
are ignored by the source and omitted here. -/

inductive HandlerCall where
  | set_title
  | set_cursor_style
  | input (c : Char)
  | goto (row col : Nat)
  | goto_line (row : Nat)
  | goto_col (col : Nat)
  | insert_blank (cols : Nat)
  | move_up (rows : Nat)
  | move_down (rows : Nat)
  | identify_terminal
  | device_status (param : Nat)
  | move_forward (cols : Nat)
  | move_backward (cols : Nat)
  | move_down_and_cr (rows : Nat)
  | move_up_and_cr (rows : Nat)
  | put_tab (count : Int)
  | backspace
  | carriage_return
  | linefeed
  | bell
  | substitute
  | newline
  | set_horizontal_tabstop
  | scroll_up (rows : Nat)
  | scroll_down (rows : Nat)
  | insert_blank_lines (rows : Nat)
  | delete_lines (rows : Nat)
  | erase_chars (cols : Nat)
  | delete_chars (cols : Nat)
  | move_backward_tabs (count : Int)
  | move_forward_tabs (count : Int)
  | save_cursor_position
  | restore_cursor_position
  | clear_line (mode : LineClearMode)
  | clear_screen (mode : ClearMode)
  | clear_tabs
  | reset_state
  | reverse_index
  | terminal_attribute (attr : Attr)
  | set_mode
  | unset_mode
  | set_scrolling_region (top : Nat) (bottom : Option Nat)
  | set_keypad_application_mode
  | unset_keypad_application_mode
  | set_active_charset
  | configure_charset
  | set_color
  | dynamic_color_sequence
  | reset_color
  | clipboard_store
  | clipboard_load
  | decaln
  | push_title
  | pop_title

/-- The grid-state effect of one handler call (`device_status` writes only
to the reply writer and leaves the grid unchanged). -/
def HandlerCall.apply (h : HandlerCall) (g : Grid) : Grid :=
  match h with
  | .input c => g.input c
  | .goto row col => g.goto row col
  | .goto_line row => g.goto_line row
  | .goto_col col => g.goto_col col
  | .insert_blank cols => g.insert_blank cols
  | .move_up rows => g.move_up rows
  | .move_down rows => g.move_down rows
  | .device_status _ => g
  | .move_forward cols => g.move_forward cols
  | .move_backward cols => g.move_backward cols
  | .move_down_and_cr rows => g.move_down_and_cr rows
  | .move_up_and_cr rows => g.move_up_and_cr rows
  | .put_tab count => g.put_tab count
  | .backspace => g.backspace
  | .carriage_return => g.carriage_return
  | .linefeed => g.linefeed
  | .newline => g.newline
  | .scroll_up rows => g.scroll_up rows
  | .scroll_down rows => g.scroll_down rows
  | .insert_blank_lines rows => g.insert_blank_lines rows
  | .delete_lines rows => g.delete_lines rows
  | .erase_chars cols => g.erase_chars cols
  | .delete_chars cols => g.delete_chars cols
  | .move_forward_tabs count => g.move_forward_tabs count
  | .save_cursor_position => g.save_cursor_position
  | .restore_cursor_position => g.restore_cursor_position
  | .clear_line mode => g.clear_line mode
  | .clear_screen mode => g.clear_screen mode
  | .reverse_index => g.reverse_index
  | .terminal_attribute attr => g.terminal_attribute attr
  | .set_scrolling_region top bottom => g.set_scrolling_region top bottom
  | _ => g

/-- Apply a sequence of handler calls in order. -/
def Grid.applyCalls (g : Grid) (calls : List HandlerCall) : Grid :=
  calls.foldl (fun g h => h.apply g) g

/-- Total number of cells in the buffer (`grid.length` of the claims). -/
def Grid.cells (g : Grid) : Nat :=
  (g.buffer.map List.length).sum

/-! ## Shape preservation: no handler changes the buffer geometry -/

/-- The list of row lengths of the buffer. -/
def Grid.shape (g : Grid) : List Nat := g.buffer.map List.length

@[simp] theorem Grid.shape_mk (cur sc : CursorPos) (reg : Nat × Nat) (w h : Nat)
    (buf : List (List Cell)) (d : Finset Nat) (sg : Cell) :
    (Grid.mk cur sc reg w h buf d sg).shape = buf.map List.length := rfl

@[simp] theorem Grid.buffer_shape (g : Grid) :
    g.buffer.map List.length = g.shape := rfl

@[simp] theorem Grid.width_mk (cur sc : CursorPos) (reg : Nat × Nat) (w h : Nat)
    (buf : List (List Cell)) (d : Finset Nat) (sg : Cell) :
    (Grid.mk cur sc reg w h buf d sg).width = w := rfl

@[simp] theorem Grid.height_mk (cur sc : CursorPos) (reg : Nat × Nat) (w h : Nat)
    (buf : List (List Cell)) (d : Finset Nat) (sg : Cell) :
    (Grid.mk cur sc reg w h buf d sg).height = h := rfl

theorem foldl_pres {γ α β : Type} (m : γ → β) (f : γ → α → γ)
    (hf : ∀ g a, m (f g a) = m g) :
    ∀ (l : List α) (g : γ), m (l.foldl f g) = m g := by
  intro l
  induction l with
  | nil => intro g; rfl
  | cons a t ih => intro g; rw [List.foldl_cons, ih, hf]

theorem iterate_pres {γ β : Type} (m : γ → β) (f : γ → γ)
    (hf : ∀ g, m (f g) = m g) :
    ∀ (n : Nat) (g : γ), m (f^[n] g) = m g := by
  intro n
  induction n with
  | zero => intro g; rfl
  | succ k ih => intro g; rw [Function.iterate_succ_apply, ih, hf]

@[simp] theorem map_length_bufSet (b : List (List Cell)) (col row : Nat) (c : Cell) :
    (bufSet b col row c).map List.length = b.map List.length := by
  induction b generalizing row with
  | nil => rfl
  | cons r rs ih =>
    cases row with
    | zero => simp [bufSet]
    | succ n => simp [bufSet, ih]

@[simp] theorem shape_cell_set (g : Grid) (col row : Nat) (c : Cell) :
    (g.cell_set col row c).shape = g.shape := by
  have h : (g.cell_set col row c).shape = (bufSet g.buffer col row c).map List.length := rfl
  rw [h, map_length_bufSet]
  rfl

@[simp] theorem width_cell_set (g : Grid) (col row : Nat) (c : Cell) :
    (g.cell_set col row c).width = g.width := rfl

@[simp] theorem height_cell_set (g : Grid) (col row : Nat) (c : Cell) :
    (g.cell_set col row c).height = g.height := rfl

@[simp] theorem cursor_cell_set (g : Grid) (col row : Nat) (c : Cell) :
    (g.cell_set col row c).cursor = g.cursor := rfl

theorem shape_scroll_up_in_region (g : Grid) (rstart rend lines : Nat) :
    (g.scroll_up_in_region rstart rend lines).shape = g.shape := by
  unfold Grid.scroll_up_in_region
  split
  · rfl
  · exact foldl_pres Grid.shape _
      (fun g row => foldl_pres Grid.shape _ (fun g col => shape_cell_set ..) _ g) _ g

theorem width_scroll_up_in_region (g : Grid) (rstart rend lines : Nat) :
    (g.scroll_up_in_region rstart rend lines).width = g.width := by
  unfold Grid.scroll_up_in_region
  split
  · rfl
  · apply foldl_pres
    intro g row
    apply foldl_pres
    intro g col
    rfl

theorem height_scroll_up_in_region (g : Grid) (rstart rend lines : Nat) :
    (g.scroll_up_in_region rstart rend lines).height = g.height := by
  unfold Grid.scroll_up_in_region
  split
  · rfl
  · apply foldl_pres
    intro g row
    apply foldl_pres
    intro g col
    rfl

theorem shape_scroll_down_in_region (g : Grid) (rstart rend lines : Nat) :
    (g.scroll_down_in_region rstart rend lines).shape = g.shape := by
  unfold Grid.scroll_down_in_region
  split
  · rfl
  · exact foldl_pres Grid.shape _
      (fun g row => foldl_pres Grid.shape _ (fun g col => shape_cell_set ..) _ g) _ g

theorem width_scroll_down_in_region (g : Grid) (rstart rend lines : Nat) :
    (g.scroll_down_in_region rstart rend lines).width = g.width := by
  unfold Grid.scroll_down_in_region
  split
  · rfl
  · apply foldl_pres
    intro g row
    apply foldl_pres
    intro g col
    rfl

theorem height_scroll_down_in_region (g : Grid) (rstart rend lines : Nat) :
    (g.scroll_down_in_region rstart rend lines).height = g.height := by
  unfold Grid.scroll_down_in_region
  split
  · rfl
  · apply foldl_pres
    intro g row
    apply foldl_pres
    intro g col
    rfl

attribute [simp] shape_scroll_up_in_region width_scroll_up_in_region
  height_scroll_up_in_region shape_scroll_down_in_region
  width_scroll_down_in_region height_scroll_down_in_region

@[simp] theorem shape_scroll_up (g : Grid) (rows : Nat) :
    (g.scroll_up rows).shape = g.shape := shape_scroll_up_in_region ..

@[simp] theorem width_scroll_up (g : Grid) (rows : Nat) :
    (g.scroll_up rows).width = g.width := width_scroll_up_in_region ..

@[simp] theorem height_scroll_up (g : Grid) (rows : Nat) :
    (g.scroll_up rows).height = g.height := height_scroll_up_in_region ..

@[simp] theorem shape_scroll_down (g : Grid) (rows : Nat) :
    (g.scroll_down rows).shape = g.shape := shape_scroll_down_in_region ..

@[simp] theorem width_scroll_down (g : Grid) (rows : Nat) :
    (g.scroll_down rows).width = g.width := width_scroll_down_in_region ..

@[simp] theorem height_scroll_down (g : Grid) (rows : Nat) :
    (g.scroll_down rows).height = g.height := height_scroll_down_in_region ..

@[simp] theorem shape_move_horizontal (g : Grid) (d : Displace) :
    (g.move_horizontal d).shape = g.shape := rfl

@[simp] theorem width_move_horizontal (g : Grid) (d : Displace) :
    (g.move_horizontal d).width = g.width := rfl

@[simp] theorem height_move_horizontal (g : Grid) (d : Displace) :
    (g.move_horizontal d).height = g.height := rfl

@[simp] theorem shape_move_vertical (g : Grid) (d : Displace) :
    (g.move_vertical d).shape = g.shape := rfl

@[simp] theorem width_move_vertical (g : Grid) (d : Displace) :
    (g.move_vertical d).width = g.width := rfl

@[simp] theorem height_move_vertical (g : Grid) (d : Displace) :
    (g.move_vertical d).height = g.height := rfl

@[simp] theorem shape_input (g : Grid) (c : Char) : (g.input c).shape = g.shape := by
  unfold Grid.input
  dsimp only
  split <;> split <;> simp [Grid.carriage_return]

@[simp] theorem width_input (g : Grid) (c : Char) : (g.input c).width = g.width := by
  unfold Grid.input
  dsimp only
  split <;> split <;> simp [Grid.carriage_return]

@[simp] theorem height_input (g : Grid) (c : Char) : (g.input c).height = g.height := by
  unfold Grid.input
  dsimp only
  split <;> split <;> simp [Grid.carriage_return]

@[simp] theorem shape_linefeed (g : Grid) : g.linefeed.shape = g.shape := by
  unfold Grid.linefeed; split <;> [simp; split <;> rfl]

@[simp] theorem width_linefeed (g : Grid) : g.linefeed.width = g.width := by
  unfold Grid.linefeed; split <;> [simp; split <;> rfl]

@[simp] theorem height_linefeed (g : Grid) : g.linefeed.height = g.height := by
  unfold Grid.linefeed; split <;> [simp; split <;> rfl]

@[simp] theorem shape_put_tab (g : Grid) (count : Int) :
    (g.put_tab count).shape = g.shape := by
  unfold Grid.put_tab
  apply iterate_pres
  intro g
  rfl

@[simp] theorem width_put_tab (g : Grid) (count : Int) :
    (g.put_tab count).width = g.width := by
  unfold Grid.put_tab
  apply iterate_pres
  intro g
  rfl

@[simp] theorem height_put_tab (g : Grid) (count : Int) :
    (g.put_tab count).height = g.height := by
  unfold Grid.put_tab
  apply iterate_pres
  intro g
  rfl

@[simp] theorem shape_move_forward_tabs (g : Grid) (count : Int) :
    (g.move_forward_tabs count).shape = g.shape := by
  unfold Grid.move_forward_tabs
  apply iterate_pres
  intro g
  rfl

@[simp] theorem width_move_forward_tabs (g : Grid) (count : Int) :
    (g.move_forward_tabs count).width = g.width := by
  unfold Grid.move_forward_tabs
  apply iterate_pres
  intro g
  rfl

@[simp] theorem height_move_forward_tabs (g : Grid) (count : Int) :
    (g.move_forward_tabs count).height = g.height := by
  unfold Grid.move_forward_tabs
  apply iterate_pres
  intro g
  rfl

@[simp] theorem shape_insert_blank (g : Grid) (cols : Nat) :
    (g.insert_blank cols).shape = g.shape := by
  unfold Grid.insert_blank
  split
  · rfl
  · apply foldl_pres; intro g col; simp

@[simp] theorem width_insert_blank (g : Grid) (cols : Nat) :
    (g.insert_blank cols).width = g.width := by
  unfold Grid.insert_blank
  split
  · rfl
  · apply foldl_pres; intro g col; rfl

@[simp] theorem height_insert_blank (g : Grid) (cols : Nat) :
    (g.insert_blank cols).height = g.height := by
  unfold Grid.insert_blank
  split
  · rfl
  · apply foldl_pres; intro g col; rfl

@[simp] theorem shape_erase_chars (g : Grid) (cols : Nat) :
    (g.erase_chars cols).shape = g.shape := by
  unfold Grid.erase_chars
  apply foldl_pres; intro g x1; dsimp only; split <;> simp

@[simp] theorem width_erase_chars (g : Grid) (cols : Nat) :
    (g.erase_chars cols).width = g.width := by
  unfold Grid.erase_chars
  apply foldl_pres; intro g x1; dsimp only; split <;> rfl

@[simp] theorem height_erase_chars (g : Grid) (cols : Nat) :
    (g.erase_chars cols).height = g.height := by
  unfold Grid.erase_chars
  apply foldl_pres; intro g x1; dsimp only; split <;> rfl

@[simp] theorem shape_delete_chars (g : Grid) (cols : Nat) :
    (g.delete_chars cols).shape = g.shape := by
  unfold Grid.delete_chars
  apply foldl_pres; intro g col; simp

@[simp] theorem width_delete_chars (g : Grid) (cols : Nat) :
    (g.delete_chars cols).width = g.width := by
  unfold Grid.delete_chars
  apply foldl_pres; intro g col; rfl

@[simp] theorem height_delete_chars (g : Grid) (cols : Nat) :
    (g.delete_chars cols).height = g.height := by
  unfold Grid.delete_chars
  apply foldl_pres; intro g col; rfl

@[simp] theorem shape_clear_line (g : Grid) (mode : LineClearMode) :
    (g.clear_line mode).shape = g.shape := by
  unfold Grid.clear_line
  dsimp only [Grid.shape]
  apply foldl_pres (fun b : List (List Cell) => b.map List.length)
  intro b col
  simp

@[simp] theorem width_clear_line (g : Grid) (mode : LineClearMode) :
    (g.clear_line mode).width = g.width := rfl

@[simp] theorem height_clear_line (g : Grid) (mode : LineClearMode) :
    (g.clear_line mode).height = g.height := rfl

@[simp] theorem shape_clear_screen (g : Grid) (mode : ClearMode) :
    (g.clear_screen mode).shape = g.shape := by
  unfold Grid.clear_screen
  apply foldl_pres
  intro g row
  apply foldl_pres
  intro g col
  split <;> simp

@[simp] theorem width_clear_screen (g : Grid) (mode : ClearMode) :
    (g.clear_screen mode).width = g.width := by
  unfold Grid.clear_screen
  apply foldl_pres
  intro g row
  apply foldl_pres
  intro g col
  split <;> rfl

@[simp] theorem height_clear_screen (g : Grid) (mode : ClearMode) :
    (g.clear_screen mode).height = g.height := by
  unfold Grid.clear_screen
  apply foldl_pres
  intro g row
  apply foldl_pres
  intro g col
  split <;> rfl

@[simp] theorem shape_reverse_index (g : Grid) : g.reverse_index.shape = g.shape := by
  unfold Grid.reverse_index; split <;> simp

@[simp] theorem width_reverse_index (g : Grid) : g.reverse_index.width = g.width := by
  unfold Grid.reverse_index; split <;> simp

@[simp] theorem height_reverse_index (g : Grid) : g.reverse_index.height = g.height := by
  unfold Grid.reverse_index; split <;> simp

@[simp] theorem shape_insert_blank_lines (g : Grid) (rows : Nat) :
    (g.insert_blank_lines rows).shape = g.shape := by
  unfold Grid.insert_blank_lines; split <;> simp

@[simp] theorem width_insert_blank_lines (g : Grid) (rows : Nat) :
    (g.insert_blank_lines rows).width = g.width := by
  unfold Grid.insert_blank_lines; split <;> simp

@[simp] theorem height_insert_blank_lines (g : Grid) (rows : Nat) :
    (g.insert_blank_lines rows).height = g.height := by
  unfold Grid.insert_blank_lines; split <;> simp

@[simp] theorem shape_delete_lines (g : Grid) (rows : Nat) :
    (g.delete_lines rows).shape = g.shape := by
  unfold Grid.delete_lines; split <;> simp

@[simp] theorem width_delete_lines (g : Grid) (rows : Nat) :
    (g.delete_lines rows).width = g.width := by
  unfold Grid.delete_lines; split <;> simp

@[simp] theorem height_delete_lines (g : Grid) (rows : Nat) :
    (g.delete_lines rows).height = g.height := by
  unfold Grid.delete_lines; split <;> simp

@[simp] theorem shape_terminal_attribute (g : Grid) (attr : Attr) :
    (g.terminal_attribute attr).shape = g.shape := by
  cases attr <;> rfl

@[simp] theorem width_terminal_attribute (g : Grid) (attr : Attr) :
    (g.terminal_attribute attr).width = g.width := by
  cases attr <;> rfl

@[simp] theorem height_terminal_attribute (g : Grid) (attr : Attr) :
    (g.terminal_attribute attr).height = g.height := by
  cases attr <;> rfl

/-- Every handler call preserves the buffer geometry (rows and their
lengths), the width and the height. -/
theorem apply_shape (h : HandlerCall) (g : Grid) :
    (h.apply g).shape = g.shape ∧ (h.apply g).width = g.width ∧
      (h.apply g).height = g.height := by
  cases h <;>
    simp [HandlerCall.apply, Grid.goto, Grid.goto_line, Grid.goto_col,
      Grid.move_up, Grid.move_down, Grid.move_forward, Grid.move_backward,
      Grid.move_down_and_cr, Grid.move_up_and_cr, Grid.backspace,
      Grid.carriage_return, Grid.newline, Grid.save_cursor_position,
      Grid.restore_cursor_position, Grid.set_scrolling_region]

theorem applyCalls_cons (g : Grid) (h : HandlerCall) (t : List HandlerCall) :
    g.applyCalls (h :: t) = (h.apply g).applyCalls t := rfl

theorem applyCalls_shape (calls : List HandlerCall) :
    ∀ g : Grid, (g.applyCalls calls).shape = g.shape := by
  induction calls with
  | nil => intro g; rfl
  | cons h t ih =>
    intro g
    rw [applyCalls_cons, ih, (apply_shape h g).1]

theorem cells_eq_sum_shape (g : Grid) : g.cells = g.shape.sum := rfl

theorem shape_new (w h : Nat) : (Grid.new w h).shape = List.replicate h w := by
  simp [Grid.new, Grid.shape]

/-- Claim C2, amended.  The original claim's cursor-bound conjuncts do not
hold (see the counterexample below); the buffer-size conjunct does: after
every handler call of any sequence starting from `Grid::new(width, height)`,
the total number of cells in the buffer equals `width * height`. -/
theorem grid_buffer_size_invariant (w h : Nat) (calls : List HandlerCall) :
    ((Grid.new w h).applyCalls calls).cells = w * h := by
  rw [cells_eq_sum_shape, applyCalls_shape, shape_new]
  simp [List.sum_replicate, smul_eq_mul, Nat.mul_comm]

/-- Claim C2, counterexample to the claim as stated.  On a `4×4` grid with
scrolling region `[0, 2)`, `goto_line(3)` parks the cursor below the region
bottom and `put_tab(1)` moves the column to `8 ≥ width`; the cursor-bound
conjuncts of the invariant are both violated after these handler calls. -/
theorem grid_cursor_invariant_counterexample :
    let g := (Grid.new 4 4).applyCalls
      [HandlerCall.set_scrolling_region 1 (some 2), HandlerCall.goto_line 3,
       HandlerCall.put_tab 1]
    g.cursor.col = 8 ∧ g.cursor.row = 3 ∧ g.width = 4 ∧
      g.scrolling_region.2 = 2 ∧
      ¬ (g.cursor.col < g.width ∧ g.cursor.row ≤ g.scrolling_region.2) := by
  decide

/-- Claim C3 names the code bug: `move_horizontal(ToTabStop)` (as invoked by
`put_tab`) does not clamp against the width.  On a `4`-wide grid a single
tab moves the cursor column to `8`, outside `[0, width)`; the next `input`
would index the buffer out of bounds and panic. -/
theorem put_tab_unclamped_bug :
    (Grid.put_tab (Grid.new 4 4) 1).cursor.col = 8 ∧
    (Grid.put_tab (Grid.new 4 4) 1).width = 4 ∧
    ¬ (Grid.put_tab (Grid.new 4 4) 1).cursor.col <
        (Grid.put_tab (Grid.new 4 4) 1).width := by
  decide

/-- The clamped arms of the cursor-motion helpers do pin the coordinates:
`Absolute`/`Relative`/`ToStart` horizontal motion lands in `[0, width)` and
every vertical motion lands in `[0, height)` (`ToTabStop` keeps the row),
for positive dimensions and in-bounds starting rows. -/
theorem move_helpers_clamp (g : Grid) (n : Int)
    (hw : 0 < g.width) (hh : 0 < g.height) (hr : g.cursor.row < g.height) :
    (g.move_horizontal (Displace.Absolute n)).cursor.col < g.width ∧
    (g.move_horizontal (Displace.Relative n)).cursor.col < g.width ∧
    (g.move_horizontal Displace.ToStart).cursor.col < g.width ∧
    (g.move_vertical (Displace.Absolute n)).cursor.row < g.height ∧
    (g.move_vertical (Displace.Relative n)).cursor.row < g.height ∧
    (g.move_vertical Displace.ToStart).cursor.row < g.height ∧
    (g.move_vertical Displace.ToTabStop).cursor.row < g.height := by
  unfold Grid.move_horizontal Grid.move_vertical
  refine ⟨?_, ?_, hw, ?_, ?_, hh, hr⟩ <;> dsimp only <;> omega

/-- A witness for `move_helpers_clamp` at a concrete grid and displacement. -/
theorem move_helpers_clamp_witness :
    ((Grid.new 4 4).move_horizontal (Displace.Absolute 99)).cursor.col < 4 := by
  exact (move_helpers_clamp (Grid.new 4 4) 99 (by decide) (by decide) (by decide)).1

/-- Claim C5 names the code bug: on a width shrink, `Grid::resize` clamps
the `row` fields of `cursor` and `saved_cursor` against `new_width - 1` and
leaves the `col` fields unclamped.  Shrinking a `4×4` grid with cursor
`(col 3, row 3)` to width `2` yields cursor `(col 3, row 1)`: the column is
out of bounds and the row was altered. -/
theorem resize_shrink_clamps_rows_bug :
    (Grid.resize (Grid.goto (Grid.new 4 4) 3 3) 2 4).cursor.col = 3 ∧
    (Grid.resize (Grid.goto (Grid.new 4 4) 3 3) 2 4).cursor.row = 1 ∧
    (Grid.resize (Grid.goto (Grid.new 4 4) 3 3) 2 4).width = 2 ∧
    ¬ (Grid.resize (Grid.goto (Grid.new 4 4) 3 3) 2 4).cursor.col <
        (Grid.resize (Grid.goto (Grid.new 4 4) 3 3) 2 4).width := by
  decide

/-- Claim C6: `device_status(writer, 5)` writes exactly the four bytes
`ESC [ 0 n`; `device_status(writer, 6)` writes `ESC [ <row+1> ; <col+1> R`
for the 0-indexed cursor coordinates; any other parameter writes nothing. -/
theorem device_status_report (g : Grid) :
    g.device_status 5 = "\x1b[0n" ∧ (g.device_status 5).length = 4 ∧
    g.device_status 6 =
      "\x1b[" ++ toString (g.cursor.row + 1) ++ ";" ++
        toString (g.cursor.col + 1) ++ "R" ∧
    ∀ param : Nat, param ≠ 5 → param ≠ 6 → g.device_status param = "" := by
  refine ⟨rfl, rfl, rfl, ?_⟩
  intro param h5 h6
  simp [Grid.device_status, h5, h6]

/-- Witness for `device_status_report`: scenario S4 of the spec (grid `4×4`,
`goto(2,3)`). -/
theorem device_status_report_witness :
    ((Grid.new 4 4).goto 2 3).device_status 5 = "\x1b[0n" ∧
    ((Grid.new 4 4).goto 2 3).device_status 6 = "\x1b[3;4R" ∧
    ((Grid.new 4 4).goto 2 3).device_status 12 = "" := by
  obtain ⟨h5, _, h6, hother⟩ := device_status_report ((Grid.new 4 4).goto 2 3)
  refine ⟨h5, ?_, hother 12 (by decide) (by decide)⟩
  rw [h6]
  decide

/-- Claim C10: `Grid::new` marks every row `0 … height-1` dirty, the first
`draw` after construction emits exactly the rows `0 … height-1`, and `draw`
always leaves `dirty_rows` empty. -/
theorem dirty_rows_new_and_draw (w h : Nat) (g : Grid) :
    (Grid.new w h).dirty_rows = Finset.range h ∧
    ((Grid.new w h).draw).2 = List.range h ∧
    (g.draw).1.dirty_rows = ∅ := by
  refine ⟨rfl, ?_, rfl⟩
  simp [Grid.draw, Grid.new, Finset.sort_range]

theorem listResize_getElem {α : Type} (l : List α) (n : Nat) (fill : α) (i : Nat)
    (hi : i < l.length) (hn : l.length ≤ n) :
    (listResize l n fill)[i]? = l[i]? := by
  unfold listResize
  have h1 : i < (l.take n).length := by
    rw [List.length_take]; omega
  rw [List.getElem?_append, if_pos h1, List.getElem?_take, if_pos (by omega)]

/-- Claim C7: a resize that grows (or keeps) both dimensions preserves every
cell that was in bounds before the resize. -/
theorem resize_grow_preserves_cells (g : Grid) (w2 h2 c r : Nat)
    (hlen : g.buffer.length = g.height)
    (hrows : ∀ row ∈ g.buffer, row.length = g.width)
    (hc : c < g.width) (hr : r < g.height)
    (hw : g.width ≤ w2) (hh : g.height ≤ h2) :
    (g.resize w2 h2).cell? c r = g.cell? c r := by
  have hnh : ¬ h2 < g.height := by omega
  unfold Grid.resize
  rw [if_neg hnh]
  dsimp only
  split
  all_goals
    try simp only [Grid.width_mk]
    rw [if_neg (show ¬ w2 < g.width by omega)]
    dsimp only [Grid.mark_all_dirty, Grid.cell?]
    obtain ⟨row, hrow⟩ : ∃ row, g.buffer[r]? = some row :=
      ⟨_, List.getElem?_eq_getElem (by omega)⟩
    have hrlen : row.length = g.width := hrows row (List.getElem?_mem hrow)
    rw [List.getElem?_map, listResize_getElem g.buffer h2 _ r (by omega) (by omega),
      hrow]
    simp only [Option.map_some', Option.some_bind]
    exact listResize_getElem row w2 _ c (by omega) (by omega)

/-- Witness for `resize_grow_preserves_cells`: the glyph written at `(0,0)`
of a `2×2` grid survives a resize to `3×3`. -/
theorem resize_grow_preserves_cells_witness :
    (((Grid.new 2 2).input 'a').resize 3 3).cell? 0 0 =
      ((Grid.new 2 2).input 'a').cell? 0 0 := by
  exact resize_grow_preserves_cells ((Grid.new 2 2).input 'a') 3 3 0 0
    (by decide) (by decide) (by decide) (by decide) (by decide) (by decide)

/-! ## Sessions (`src/session.rs`, `src/lib.rs`)

`Session<W: SessionWindow>` keeps its windows in a `BTreeMap<usize, W>`,
modelled here as an association list sorted by key.  The `SessionWindow`
trait operations the session invokes are passed as a `WinOps` record,
mirroring the generic `impl<W: SessionWindow> Session<W>`.  Methods that
mutate `self` and return a `Result` are embedded as returning the post
state paired with an `Except` result. -/

/-- `nix::pty::Winsize`. -/
structure Winsize where
  ws_row : Nat
  ws_col : Nat
  ws_xpixel : Nat
  ws_ypixel : Nat
deriving DecidableEq, Repr

/-- `console::PtyUpdate`: one byte of PTY output, or the exit sentinel. -/
inductive PtyUpdate where
  | Byte (b : Nat)
  | Exited
deriving DecidableEq, Repr

/-- `SessionPtyUpdate` (session.rs). -/
structure SessionPtyUpdate where
  window_idx : Nat
  data : PtyUpdate
deriving DecidableEq, Repr

/-- `SessionError` (session.rs). -/
inductive SessionError where
  | Io
  | NoSelectedWindow
  | WindowLost
deriving DecidableEq, Repr

/-- The `SessionWindow` trait surface used by `Session` (stdin forwarding
and redraw do not change the window, so only the mutating operations are
recorded). -/
structure WinOps (W : Type) where
  wnew : String → Winsize → W
  pty_update : W → Nat → W
  resize : W → Winsize → W
  mark_dirty : W → W

/-- `util::get_shell` (lib.rs).  The Rust function reads no environment
variable (its body is `"/bin/sh".to_string()` with a `TODO`); the `env`
parameter stands for the process environment so that claims about
environment dependence can be stated. -/
def util.get_shell (_env : String → Option String) : String :=
  "/bin/sh"

/-- `Session<W>` (session.rs). -/
structure Session (W : Type) where
  next_window : Nat
  selected_window : Option Nat
  windows : List (Nat × W)
  size : Winsize

/-- `BTreeMap::get`. -/
def mapGet {W : Type} (l : List (Nat × W)) (k : Nat) : Option W :=
  (l.find? (fun p => p.1 == k)).map (fun p => p.2)

/-- `BTreeMap::insert` on a key-sorted association list. -/
def mapInsert {W : Type} : List (Nat × W) → Nat → W → List (Nat × W)
  | [], k, v => [(k, v)]
  | p :: t, k, v =>
    if k < p.1 then (k, v) :: p :: t
    else if k = p.1 then (k, v) :: t
    else p :: mapInsert t k v

/-- `BTreeMap::remove` (the removed value is recovered with `mapGet`). -/
def mapRemove {W : Type} (l : List (Nat × W)) (k : Nat) : List (Nat × W) :=
  l.filter (fun p => p.1 != k)

/-- In-place mutation of the value stored at `k` (`get_mut` followed by a
write). -/
def mapModify {W : Type} (l : List (Nat × W)) (k : Nat) (f : W → W) :
    List (Nat × W) :=
  l.map (fun p => if p.1 = k then (p.1, f p.2) else p)

/-- The keys, in storage (ascending) order. -/
def mapKeys {W : Type} (l : List (Nat × W)) : List Nat :=
  l.map Prod.fst

/-- `Session::new(size)`. -/
def Session.new (W : Type) (size : Winsize) : Session W :=
  { next_window := 0, selected_window := none, windows := [], size := size }

/-- `Session::new_window` (session.rs): spawn `W::new(&util::get_shell(),
self.size)`, store it at the fresh index, bump `next_window`; returns the
new index (the mapped update stream is not modelled). -/
def Session.new_window {W : Type} (ops : WinOps W) (env : String → Option String)
    (s : Session W) : Session W × Nat :=
  let window_idx := s.next_window
  let child := ops.wnew (util.get_shell env) s.size
  ({ s with windows := mapInsert s.windows window_idx child
            next_window := s.next_window + 1 }, window_idx)

/-- `Session::select_window(idx)` (session.rs): `None` when `idx` is not a
key; otherwise select it, then `resize` to the session size and
`mark_dirty` the selected window. -/
def Session.select_window {W : Type} (ops : WinOps W) (s : Session W) (idx : Nat) :
    Session W × Option Nat :=
  match mapGet s.windows idx with
  | some _ =>
    let s := { s with selected_window := some idx }
    let sz := s.size
    ({ s with windows :=
        mapModify s.windows idx (fun w => ops.mark_dirty (ops.resize w sz)) },
      some idx)
  | none => (s, none)

/-- `Session::next_window_idx`: smallest key strictly greater than the
selection (`range((selected+1)..).next()`). -/
def Session.next_window_idx {W : Type} (s : Session W) : Option Nat :=
  s.selected_window.bind
    (fun sel => (s.windows.find? (fun p => decide (sel < p.1))).map (fun p => p.1))

/-- `Session::prev_window_idx`: greatest key strictly smaller than the
selection (`range(..selected).next_back()`). -/
def Session.prev_window_idx {W : Type} (s : Session W) : Option Nat :=
  s.selected_window.bind
    (fun sel =>
      ((s.windows.filter (fun p => decide (p.1 < sel))).getLast?).map (fun p => p.1))

/-- `Session::first_window_idx`. -/
def Session.first_window_idx {W : Type} (s : Session W) : Option Nat :=
  s.windows.head?.map (fun p => p.1)

/-- `Session::last_window_idx`. -/
def Session.last_window_idx {W : Type} (s : Session W) : Option Nat :=
  s.windows.getLast?.map (fun p => p.1)

/-- `Session::pty_update(update)` (session.rs).  `Exited` removes the
window and then reselects `next_window_idx() OR last_window_idx()` through
`select_window` (or clears the selection when both are `None`); `Byte`
forwards the byte to the window.  A missing index yields
`Err(WindowLost)` with the session unchanged. -/
def Session.pty_update {W : Type} (ops : WinOps W) (s : Session W)
    (update : SessionPtyUpdate) : Session W × Except SessionError Unit :=
  match update.data with
  | PtyUpdate.Exited =>
    match mapGet s.windows update.window_idx with
    | none => (s, Except.error SessionError.WindowLost)
    | some _ =>
      let s := { s with windows := mapRemove s.windows update.window_idx }
      match s.next_window_idx.orElse (fun _ => s.last_window_idx) with
      | some idx => ((s.select_window ops idx).1, Except.ok ())
      | none => ({ s with selected_window := none }, Except.ok ())
  | PtyUpdate.Byte b =>
    match mapGet s.windows update.window_idx with
    | none => (s, Except.error SessionError.WindowLost)
    | some _ =>
      ({ s with windows :=
          mapModify s.windows update.window_idx (fun w => ops.pty_update w b) },
        Except.ok ())

/-- `Session::resize(size)` (session.rs): `self.size` is stored first, then
the selected window is resized; with no (live) selection the error is
returned after the size was already updated. -/
def Session.resize {W : Type} (ops : WinOps W) (s : Session W) (size : Winsize) :
    Session W × Except SessionError Unit :=
  let s := { s with size := size }
  match s.selected_window.bind (fun idx => (mapGet s.windows idx).map (fun _ => idx)) with
  | some idx =>
    ({ s with windows := mapModify s.windows idx (fun w => ops.resize w size) },
      Except.ok ())
  | none => (s, Except.error SessionError.NoSelectedWindow)

theorem mem_keys_get {W : Type} {l : List (Nat × W)} {k : Nat}
    (h : k ∈ mapKeys l) : ∃ w, mapGet l k = some w := by
  induction l with
  | nil => simp [mapKeys] at h
  | cons p t ih =>
    by_cases hpk : p.1 = k
    · exact ⟨p.2, by simp [mapGet, List.find?_cons, hpk]⟩
    · have hk : k ∈ mapKeys t := by
        simp [mapKeys] at h ⊢
        tauto
      obtain ⟨w, hw⟩ := ih hk
      refine ⟨w, ?_⟩
      simp only [mapGet] at hw ⊢
      rw [List.find?_cons_of_neg _ (by simp [hpk])]
      exact hw

theorem keys_mapModify {W : Type} (l : List (Nat × W)) (k : Nat) (f : W → W) :
    mapKeys (mapModify l k f) = mapKeys l := by
  induction l with
  | nil => rfl
  | cons p t ih =>
    simp only [mapModify, mapKeys, List.map_cons] at ih ⊢
    rw [ih]
    by_cases hpk : p.1 = k <;> simp [hpk]

theorem mapGet_mapModify {W : Type} (l : List (Nat × W)) (k : Nat) (f : W → W)
    (w : W) (h : mapGet l k = some w) : mapGet (mapModify l k f) k = some (f w) := by
  induction l with
  | nil => simp [mapGet] at h
  | cons p t ih =>
    by_cases hpk : p.1 = k
    · rw [mapGet, List.find?_cons_of_pos _ (by simp [hpk])] at h
      simp only [Option.map_some', Option.some_inj] at h
      simp only [mapModify, List.map_cons, if_pos hpk]
      rw [mapGet, List.find?_cons_of_pos _ (by simp [hpk])]
      simp [h]
    · rw [mapGet, List.find?_cons_of_neg _ (by simp [hpk])] at h
      have hrec := ih h
      simp only [mapModify, List.map_cons, if_neg hpk]
      rw [mapGet, List.find?_cons_of_neg _ (by simp [hpk])]
      exact hrec

theorem mapGet_mapInsert {W : Type} (l : List (Nat × W)) (k : Nat) (v : W) :
    mapGet (mapInsert l k v) k = some v := by
  induction l with
  | nil => simp [mapInsert, mapGet, List.find?_cons]
  | cons p t ih =>
    by_cases h1 : k < p.1
    · simp [mapInsert, if_pos h1, mapGet, List.find?_cons]
    · by_cases h2 : k = p.1
      · simp [mapInsert, if_neg h1, if_pos h2, mapGet, List.find?_cons]
      · simp only [mapInsert, if_neg h1, if_neg h2]
        rw [mapGet, List.find?_cons_of_neg _ (by simp only [beq_iff_eq]; omega)]
        exact ih

/-- Claim C4, counterexample to the claim as stated: with `SHELL` set to
`/bin/bash` in the environment, the spawned command is still `/bin/sh`,
because `util::get_shell` never reads `SHELL`. -/
theorem get_shell_ignores_shell_var :
    util.get_shell (fun k => if k = "SHELL" then some "/bin/bash" else none)
      = "/bin/sh" ∧ ("/bin/sh" : String) ≠ "/bin/bash" := by
  exact ⟨rfl, by decide⟩

/-- Claim C4, amended: the command spawned for a new window is `/bin/sh`
for every process environment; the `SHELL` variable is never consulted. -/
theorem new_window_spawns_bin_sh {W : Type} (ops : WinOps W)
    (env : String → Option String) (s : Session W) :
    util.get_shell env = "/bin/sh" ∧
    mapGet (s.new_window ops env).1.windows (s.new_window ops env).2 =
      some (ops.wnew "/bin/sh" s.size) := by
  exact ⟨rfl, mapGet_mapInsert ..⟩

/-- Claim C8: `Session::resize` with no selected window returns
`Err(NoSelectedWindow)`, but the stored size is updated before the error
returns, and a subsequent successful `select_window` resizes the selected
window with that new size. -/
theorem resize_unselected_stores_size {W : Type} (ops : WinOps W) (s : Session W)
    (size : Winsize) (hsel : s.selected_window = none) :
    (s.resize ops size).2 = Except.error SessionError.NoSelectedWindow ∧
    (s.resize ops size).1.size = size ∧
    ∀ idx w, mapGet (s.resize ops size).1.windows idx = some w →
      ((s.resize ops size).1.select_window ops idx).2 = some idx ∧
      mapGet ((s.resize ops size).1.select_window ops idx).1.windows idx =
        some (ops.mark_dirty (ops.resize w size)) := by
  refine ⟨by simp [Session.resize, hsel], by simp [Session.resize, hsel], ?_⟩
  intro idx w hw
  simp only [Session.resize, hsel] at hw ⊢
  simp only [Option.none_bind] at hw ⊢
  simp only [Session.select_window, hw]
  exact ⟨by trivial, mapGet_mapModify _ _ _ _ hw⟩

/-- Witness for `resize_unselected_stores_size` at a one-window session. -/
theorem resize_unselected_stores_size_witness :
    let ops : WinOps Winsize :=
      ⟨fun _ sz => sz, fun w _ => w, fun _ sz => sz, fun w => w⟩
    let s : Session Winsize :=
      ⟨1, none, [(0, ⟨24, 80, 0, 0⟩)], ⟨24, 80, 0, 0⟩⟩
    (s.resize ops ⟨30, 100, 0, 0⟩).2 = Except.error SessionError.NoSelectedWindow ∧
    (s.resize ops ⟨30, 100, 0, 0⟩).1.size = ⟨30, 100, 0, 0⟩ ∧
    ((s.resize ops ⟨30, 100, 0, 0⟩).1.select_window ops 0).2 = some 0 ∧
    mapGet ((s.resize ops ⟨30, 100, 0, 0⟩).1.select_window ops 0).1.windows 0 =
      some ⟨30, 100, 0, 0⟩ := by
  have h := resize_unselected_stores_size (W := Winsize)
    ⟨fun _ sz => sz, fun w _ => w, fun _ sz => sz, fun w => w⟩
    ⟨1, none, [(0, ⟨24, 80, 0, 0⟩)], ⟨24, 80, 0, 0⟩⟩ ⟨30, 100, 0, 0⟩ rfl
  obtain ⟨hsz, _, h3⟩ := h
  obtain ⟨hsel, hget⟩ := h3 0 ⟨24, 80, 0, 0⟩ (by decide)
  exact ⟨hsz, by decide, hsel, hget⟩

/-- Claim C9: `pty_update` for an id that is not a window key returns
`Err(WindowLost)` for both `Byte` and `Exited` updates and leaves the
session (window map, selection and stored size) unchanged. -/
theorem pty_update_missing_window {W : Type} (ops : WinOps W) (s : Session W)
    (id b : Nat) (h : mapGet s.windows id = none) :
    s.pty_update ops ⟨id, PtyUpdate.Byte b⟩ =
      (s, Except.error SessionError.WindowLost) ∧
    s.pty_update ops ⟨id, PtyUpdate.Exited⟩ =
      (s, Except.error SessionError.WindowLost) := by
  constructor <;> simp [Session.pty_update, h]

/-- Witness for `pty_update_missing_window`: id `5` on a session that only
has window `0`. -/
theorem pty_update_missing_window_witness :
    let s : Session Unit := ⟨1, some 0, [(0, ())], ⟨24, 80, 0, 0⟩⟩
    let ops : WinOps Unit := ⟨fun _ _ => (), fun w _ => w, fun w _ => w, fun w => w⟩
    s.pty_update ops ⟨5, PtyUpdate.Byte 13⟩ =
      (s, Except.error SessionError.WindowLost) ∧
    s.pty_update ops ⟨5, PtyUpdate.Exited⟩ =
      (s, Except.error SessionError.WindowLost) := by
  exact pty_update_missing_window
    ⟨fun _ _ => (), fun w _ => w, fun w _ => w, fun w => w⟩
    ⟨1, some 0, [(0, ())], ⟨24, 80, 0, 0⟩⟩ 5 13 (by decide)

/-- Claim C1, counterexample to the claim as stated: in a session with
windows `{0, 1, 2}` and window `0` selected, an `Exited` update for the
*unselected* window `2` moves the selection to window `1` (the code
reselects `next_window_idx() OR last_window_idx()` unconditionally), so the
selection does not stay unchanged. -/
theorem pty_update_exited_unselected_counterexample :
    let s : Session Unit := ⟨3, some 0, [(0, ()), (1, ()), (2, ())], ⟨24, 80, 0, 0⟩⟩
    let ops : WinOps Unit := ⟨fun _ _ => (), fun w _ => w, fun w _ => w, fun w => w⟩
    (s.pty_update ops ⟨2, PtyUpdate.Exited⟩).2 = Except.ok () ∧
    (s.pty_update ops ⟨2, PtyUpdate.Exited⟩).1.selected_window = some 1 ∧
    ¬ (s.pty_update ops ⟨2, PtyUpdate.Exited⟩).1.selected_window
        = s.selected_window := by
  refine ⟨rfl, by decide, by decide⟩

theorem mapKeys_cons {W : Type} (p : Nat × W) (t : List (Nat × W)) :
    mapKeys (p :: t) = p.1 :: mapKeys t := rfl

theorem keys_mapRemove {W : Type} (l : List (Nat × W)) (id : Nat) :
    mapKeys (mapRemove l id) = (mapKeys l).filter (fun k => k != id) := by
  simp only [mapKeys, mapRemove]
  rw [List.filter_map]
  rfl

/-- On a key-sorted association list, `find?` with the predicate
`sel < key` returns the smallest key strictly greater than `sel`. -/
theorem find?_gt_sorted {W : Type} (sel : Nat) :
    ∀ (l : List (Nat × W)) (p : Nat × W),
      List.Sorted (· < ·) (mapKeys l) →
      l.find? (fun q => decide (sel < q.1)) = some p →
      p.1 ∈ mapKeys l ∧ sel < p.1 ∧ ∀ k ∈ mapKeys l, sel < k → p.1 ≤ k := by
  intro l
  induction l with
  | nil =>
    intro p _ h
    simp at h
  | cons q t ih =>
    intro p hsort h
    rw [mapKeys_cons, List.sorted_cons] at hsort
    obtain ⟨hhead, htail⟩ := hsort
    by_cases hq : sel < q.1
    · rw [List.find?_cons_of_pos _ (by simpa using hq)] at h
      obtain rfl : q = p := Option.some_inj.mp h
      refine ⟨by simp [mapKeys_cons], hq, ?_⟩
      intro k hk _
      rw [mapKeys_cons, List.mem_cons] at hk
      rcases hk with rfl | hk
      · exact le_refl _
      · exact le_of_lt (hhead k hk)
    · rw [List.find?_cons_of_neg _ (by simpa using hq)] at h
      obtain ⟨hmem, hlt, hmin⟩ := ih p htail h
      refine ⟨by rw [mapKeys_cons, List.mem_cons]; right; exact hmem, hlt, ?_⟩
      intro k hk hselk
      rw [mapKeys_cons, List.mem_cons] at hk
      rcases hk with rfl | hk
      · exact absurd hselk hq
      · exact hmin k hk hselk

/-- On a key-sorted association list, `getLast?` returns the greatest key. -/
theorem getLast?_max_sorted {W : Type} :
    ∀ (l : List (Nat × W)) (p : Nat × W),
      List.Sorted (· < ·) (mapKeys l) →
      l.getLast? = some p →
      p.1 ∈ mapKeys l ∧ ∀ k ∈ mapKeys l, k ≤ p.1 := by
  intro l
  induction l with
  | nil =>
    intro p _ h
    simp at h
  | cons q t ih =>
    intro p hsort h
    rw [mapKeys_cons, List.sorted_cons] at hsort
    obtain ⟨hhead, htail⟩ := hsort
    cases t with
    | nil =>
      obtain rfl : q = p := by simpa using h
      refine ⟨by simp [mapKeys_cons], ?_⟩
      intro k hk
      simp only [mapKeys_cons, List.mem_cons] at hk
      rcases hk with rfl | hk
      · exact le_refl _
      · simp [mapKeys] at hk
    | cons r t2 =>
      rw [List.getLast?_cons_cons] at h
      obtain ⟨hmem, hmax⟩ := ih p htail h
      refine ⟨by rw [mapKeys_cons, List.mem_cons]; right; exact hmem, ?_⟩
      intro k hk
      rw [mapKeys_cons, List.mem_cons] at hk
      rcases hk with rfl | hk
      · exact le_of_lt (hhead _ hmem)
      · exact hmax k hk

theorem orElse_none_unit {α : Type} (f : Unit → Option α) :
    Option.orElse none f = f () := rfl

theorem orElse_some_unit {α : Type} (a : α) (f : Unit → Option α) :
    Option.orElse (some a) f = some a := rfl

/-- Claim C1, amended.  `pty_update` with an `Exited` update for a live `id`
removes `id` from `windows` and reports success; the new selection is then
computed *unconditionally* (not only when `id` was selected): it becomes the
smallest remaining id strictly greater than the previously selected id when
a window was selected and such an id exists, else the greatest remaining id
when any window remains, else absent.  When `id` was the selected window
this coincides with the original claim; when `id` was not selected the
selection can move (see the counterexample). -/
theorem pty_update_exited_reselects {W : Type} (ops : WinOps W) (s : Session W)
    (id : Nat) (hsort : List.Sorted (· < ·) (mapKeys s.windows))
    (hid : id ∈ mapKeys s.windows) :
    (s.pty_update ops ⟨id, PtyUpdate.Exited⟩).2 = Except.ok () ∧
    mapKeys (s.pty_update ops ⟨id, PtyUpdate.Exited⟩).1.windows =
      mapKeys (mapRemove s.windows id) ∧
    ((s.pty_update ops ⟨id, PtyUpdate.Exited⟩).1.selected_window = none →
      mapKeys (mapRemove s.windows id) = []) ∧
    ∀ m, (s.pty_update ops ⟨id, PtyUpdate.Exited⟩).1.selected_window = some m →
      m ∈ mapKeys (mapRemove s.windows id) ∧
      ((∃ sel, s.selected_window = some sel ∧ sel < m ∧
          ∀ k ∈ mapKeys (mapRemove s.windows id), sel < k → m ≤ k) ∨
       ((∀ sel k, s.selected_window = some sel →
           k ∈ mapKeys (mapRemove s.windows id) → ¬ sel < k) ∧
        ∀ k ∈ mapKeys (mapRemove s.windows id), k ≤ m)) := by
  obtain ⟨w, hget⟩ := mem_keys_get hid
  have hrsort : List.Sorted (· < ·) (mapKeys (mapRemove s.windows id)) := by
    rw [keys_mapRemove]
    exact hsort.filter _
  have hstep : s.pty_update ops ⟨id, PtyUpdate.Exited⟩ =
      (match (Session.next_window_idx
            { s with windows := mapRemove s.windows id }).orElse
          (fun _ => Session.last_window_idx
            { s with windows := mapRemove s.windows id }) with
        | some idx =>
          ((Session.select_window ops
              { s with windows := mapRemove s.windows id } idx).1, Except.ok ())
        | none =>
          ({ { s with windows := mapRemove s.windows id } with
              selected_window := none }, Except.ok ())) := by
    simp only [Session.pty_update, hget]
  rw [hstep]
  rcases hsel : s.selected_window with _ | sel
  · simp only [Session.next_window_idx, Session.last_window_idx, Option.none_bind,
      orElse_none_unit]
    rcases hlast : (mapRemove s.windows id).getLast? with _ | p
    · simp only [hlast, Option.map_none']
      refine ⟨by trivial, by trivial, ?_, ?_⟩
      · intro _
        rw [List.getLast?_eq_none_iff.mp hlast]
        rfl
      · intro m hm
        exact Option.noConfusion hm
    · simp only [hlast, Option.map_some']
      obtain ⟨hpmem, hpmax⟩ :=
        getLast?_max_sorted (mapRemove s.windows id) p hrsort hlast
      obtain ⟨w2, hget2⟩ := mem_keys_get hpmem
      simp only [Session.select_window, hget2]
      refine ⟨by trivial, keys_mapModify .., fun h => Option.noConfusion h, ?_⟩
      intro m hm
      obtain rfl : p.1 = m := Option.some_inj.mp hm
      exact ⟨hpmem, Or.inr ⟨fun sel k hs _ => Option.noConfusion hs, hpmax⟩⟩
  · simp only [Session.next_window_idx, Session.last_window_idx, Option.some_bind]
    rcases hfind : (mapRemove s.windows id).find? (fun q => decide (sel < q.1))
      with _ | p
    · simp only [hfind, Option.map_none', orElse_none_unit]
      have hnogt : ∀ k ∈ mapKeys (mapRemove s.windows id), ¬ sel < k := by
        intro k hk
        obtain ⟨q, hq, rfl⟩ := List.mem_map.mp hk
        simpa using List.find?_eq_none.mp hfind q hq
      rcases hlast : (mapRemove s.windows id).getLast? with _ | p
      · simp only [hlast, Option.map_none']
        refine ⟨by trivial, by trivial, ?_, ?_⟩
        · intro _
          rw [List.getLast?_eq_none_iff.mp hlast]
          rfl
        · intro m hm
          exact Option.noConfusion hm
      · simp only [hlast, Option.map_some']
        obtain ⟨hpmem, hpmax⟩ :=
          getLast?_max_sorted (mapRemove s.windows id) p hrsort hlast
        obtain ⟨w2, hget2⟩ := mem_keys_get hpmem
        simp only [Session.select_window, hget2]
        refine ⟨by trivial, keys_mapModify .., fun h => Option.noConfusion h, ?_⟩
        intro m hm
        obtain rfl : p.1 = m := Option.some_inj.mp hm
        refine ⟨hpmem, Or.inr ⟨?_, hpmax⟩⟩
        intro sel' k hs hk
        obtain rfl : sel = sel' := Option.some_inj.mp hs
        exact hnogt k hk
    · simp only [hfind, Option.map_some', orElse_some_unit]
      obtain ⟨hpmem, hplt, hpmin⟩ :=
        find?_gt_sorted sel (mapRemove s.windows id) p hrsort hfind
      obtain ⟨w2, hget2⟩ := mem_keys_get hpmem
      simp only [Session.select_window, hget2]
      refine ⟨by trivial, keys_mapModify .., fun h => Option.noConfusion h, ?_⟩
      intro m hm
      obtain rfl : p.1 = m := Option.some_inj.mp hm
      exact ⟨hpmem, Or.inl ⟨sel, rfl, hplt, hpmin⟩⟩

/-- Witness for `pty_update_exited_reselects`: scenario S5 of the spec —
windows `{0, 1, 2}` with `1` selected; `Exited` for window `1`. -/
theorem pty_update_exited_reselects_witness :
    let ops : WinOps Unit := ⟨fun _ _ => (), fun w _ => w, fun w _ => w, fun w => w⟩
    let s : Session Unit := ⟨3, some 1, [(0, ()), (1, ()), (2, ())], ⟨24, 80, 0, 0⟩⟩
    (s.pty_update ops ⟨1, PtyUpdate.Exited⟩).2 = Except.ok () ∧
    mapKeys (s.pty_update ops ⟨1, PtyUpdate.Exited⟩).1.windows =
      mapKeys (mapRemove s.windows 1) ∧
    ((s.pty_update ops ⟨1, PtyUpdate.Exited⟩).1.selected_window = none →
      mapKeys (mapRemove s.windows 1) = []) ∧
    ∀ m, (s.pty_update ops ⟨1, PtyUpdate.Exited⟩).1.selected_window = some m →
      m ∈ mapKeys (mapRemove s.windows 1) ∧
      ((∃ sel, s.selected_window = some sel ∧ sel < m ∧
          ∀ k ∈ mapKeys (mapRemove s.windows 1), sel < k → m ≤ k) ∨
       ((∀ sel k, s.selected_window = some sel →
           k ∈ mapKeys (mapRemove s.windows 1) → ¬ sel < k) ∧
        ∀ k ∈ mapKeys (mapRemove s.windows 1), k ≤ m)) := by
  exact pty_update_exited_reselects
    ⟨fun _ _ => (), fun w _ => w, fun w _ => w, fun w => w⟩
    ⟨3, some 1, [(0, ()), (1, ()), (2, ())], ⟨24, 80, 0, 0⟩⟩ 1
    (by decide) (by decide)
